import Mathlib

/-!
Verification of the Hindi typing platform core: keyboard layout tables,
the key-to-character resolver, the typing-session engine, the layout
registry, the text normalizer and the statistics formulas.

Embedding conventions:
* A JavaScript string is embedded as `JsStr := List Nat`, the list of its
  UTF-16 code units (every character occurring in this code base lies in the
  Basic Multilingual Plane, so code units coincide with code points, and
  the JavaScript `s.length` is `List.length`).
* A JavaScript `Map` built from a list with pairwise distinct keys is
  embedded as the underlying association list; `Map.get` is first-match
  lookup (`mapGet`), `Map.values()` iterates in insertion order.
* A JavaScript `Set` of key codes is embedded as a `List String` queried
  only through membership, mirroring `Set.has`.
* React `useState` cells of the typing engine are gathered in the record
  `EngineState`; one keyboard or timer event is one atomic state
  transition, mirroring the single-threaded event loop.
-/

/-- A JavaScript string as its list of UTF-16 code units. -/
abbrev JsStr := List Nat

/-- The four modifier states of `types/keyboard.types` (`normal | shift
| altgr | altgr-shift`). -/
inductive ModifierState where
  | normal
  | shift
  | altgr
  | altgrShift
deriving DecidableEq, Repr, Inhabited, Fintype

/-- One `KeyMapping` entry of the layout tables in
`src/data/keyboardMappings.ts`: a physical key code with its four character
slots and ergonomic metadata. -/
structure KeyMapping where
  key : String
  normal : JsStr
  shift : JsStr
  altgr : JsStr
  altgrShift : JsStr
  finger : Nat
  hand : String
  label : String
deriving DecidableEq, Repr, Inhabited

/-- The `modifiers` field of a layout: which physical keys play the shift
role and which play the altgr role. -/
structure ModifierGroups where
  shift : List String
  altgr : List String
deriving DecidableEq, Repr

/-- A `KeyboardLayout` of `keyboardMappings.ts`: metadata, modifier role
groups and the key mappings grouped in visual rows. -/
structure KeyboardLayout where
  name : String
  description : String
  modifiers : ModifierGroups
  rows : List (List KeyMapping)
deriving DecidableEq, Repr

def REMINGTON_GAIL_LAYOUT : KeyboardLayout :=
  { name := "Remington GAIL"
  , description := "Remington-GAIL typewriter layout for Unicode Devanagari input"
  , modifiers := { shift := ["ShiftLeft", "ShiftRight"], altgr := ["AltRight"] }
  , rows :=
    [
      [
      { key := "Backquote", normal := [0x093C], shift := [0x0926, 0x094D, 0x092F],
        altgr := [0x200C], altgrShift := [0x200D],
        finger := 0, hand := "left", label := "`" },
      { key := "Digit1", normal := [0x0031], shift := [0x0964],
        altgr := [0x0967], altgrShift := [0x0919],
        finger := 0, hand := "left", label := "1" },
      { key := "Digit2", normal := [0x0032], shift := [0x002F],
        altgr := [0x0968], altgrShift := [0x0918],
        finger := 1, hand := "left", label := "2" },
      { key := "Digit3", normal := [0x0033], shift := [0x0903],
        altgr := [0x0969], altgrShift := [0x0939, 0x094D, 0x0928],
        finger := 2, hand := "left", label := "3" },
      { key := "Digit4", normal := [0x0034], shift := [0x002A],
        altgr := [0x096A], altgrShift := [0x0939, 0x094D, 0x092F],
        finger := 3, hand := "left", label := "4" },
      { key := "Digit5", normal := [0x0035], shift := [0x002D],
        altgr := [0x096B], altgrShift := [0x0025],
        finger := 3, hand := "left", label := "5" },
      { key := "Digit6", normal := [0x0036], shift := [0x2018],
        altgr := [0x096C], altgrShift := [0x0939, 0x094D, 0x092E],
        finger := 4, hand := "right", label := "6" },
      { key := "Digit7", normal := [0x0037], shift := [0x2019],
        altgr := [0x096D], altgrShift := [0x00F7],
        finger := 4, hand := "right", label := "7" },
      { key := "Digit8", normal := [0x0038], shift := [0x0926, 0x094D, 0x0927],
        altgr := [0x096E], altgrShift := [0x00D7],
        finger := 5, hand := "right", label := "8" },
      { key := "Digit9", normal := [0x0039], shift := [0x0924, 0x094D, 0x0930],
        altgr := [0x096F], altgrShift := [0x0926, 0x094D, 0x0917],
        finger := 6, hand := "right", label := "9" },
      { key := "Digit0", normal := [0x0030], shift := [0x090B],
        altgr := [0x0966], altgrShift := [0x0021],
        finger := 7, hand := "right", label := "0" },
      { key := "Minus", normal := [0x003B], shift := [0x002E],
        altgr := [0x091E], altgrShift := [0x091E, 0x094D],
        finger := 7, hand := "right", label := "-" },
      { key := "Equal", normal := [0x0943], shift := [0x094D],
        altgr := [0x002B], altgrShift := [0x003D],
        finger := 7, hand := "right", label := "=" },
      { key := "Backspace", normal := [], shift := [],
        altgr := [], altgrShift := [],
        finger := 7, hand := "right", label := "Backspace" }
      ],
      [
      { key := "Tab", normal := [], shift := [],
        altgr := [], altgrShift := [],
        finger := 0, hand := "left", label := "Tab" },
      { key := "KeyQ", normal := [0x0941], shift := [0x092B],
        altgr := [0x092B, 0x094D], altgrShift := [0x091D, 0x094D, 0x0930],
        finger := 0, hand := "left", label := "Q" },
      { key := "KeyW", normal := [0x0942], shift := [0x0945],
        altgr := [0x0944], altgrShift := [0x0960],
        finger := 1, hand := "left", label := "W" },
      { key := "KeyE", normal := [0x092E], shift := [0x092E, 0x094D],
        altgr := [0x0947, 0x0902], altgrShift := [0x0948, 0x0902],
        finger := 2, hand := "left", label := "E" },
      { key := "KeyR", normal := [0x0924], shift := [0x0924, 0x094D],
        altgr := [0x0924, 0x094D, 0x0924], altgrShift := [0x0924, 0x094D, 0x0924, 0x094D],
        finger := 3, hand := "left", label := "R" },
      { key := "KeyT", normal := [0x091C], shift := [0x091C, 0x094D],
        altgr := [0x091C, 0x094D, 0x0930], altgrShift := [0x0924, 0x094D, 0x0930, 0x094D],
        finger := 3, hand := "left", label := "T" },
      { key := "KeyY", normal := [0x0932], shift := [0x0932, 0x094D],
        altgr := [0x0926, 0x094D, 0x0926], altgrShift := [0x0926, 0x094D, 0x092D],
        finger := 4, hand := "right", label := "Y" },
      { key := "KeyU", normal := [0x0928], shift := [0x0928, 0x094D],
        altgr := [0x092B, 0x093C], altgrShift := [0x0928, 0x094D, 0x0928],
        finger := 4, hand := "right", label := "U" },
      { key := "KeyI", normal := [0x092A], shift := [0x092A, 0x094D],
        altgr := [0x092B], altgrShift := [0x092A, 0x094D, 0x0930],
        finger := 5, hand := "right", label := "I" },
      { key := "KeyO", normal := [0x0935], shift := [0x0935, 0x094D],
        altgr := [0x0935, 0x094D, 0x0928], altgrShift := [0x0935, 0x094D, 0x0930],
        finger := 6, hand := "right", label := "O" },
      { key := "KeyP", normal := [0x091A], shift := [0x091A, 0x094D],
        altgr := [0x0936], altgrShift := [0x0922, 0x093C],
        finger := 7, hand := "right", label := "P" },
      { key := "BracketLeft", normal := [0x0916, 0x094D], shift := [0x0915, 0x094D, 0x0937, 0x094D],
        altgr := [0x0916], altgrShift := [0x0915, 0x094D, 0x0937],
        finger := 7, hand := "right", label := "[" },
      { key := "BracketRight", normal := [0x002C], shift := [0x0926, 0x094D, 0x0935],
        altgr := [0x0926, 0x094D, 0x0927], altgrShift := [0x0926, 0x094D, 0x092C],
        finger := 7, hand := "right", label := "]" },
      { key := "Backslash", normal := [0x0028], shift := [0x0029],
        altgr := [0x093D], altgrShift := [0x0950],
        finger := 7, hand := "right", label := "\\" }
      ],
      [
      { key := "CapsLock", normal := [], shift := [],
        altgr := [], altgrShift := [],
        finger := 0, hand := "left", label := "Caps" },
      { key := "KeyA", normal := [0x0902], shift := [0x093E],
        altgr := [0x0939, 0x094D, 0x0923], altgrShift := [0x0916, 0x093C],
        finger := 0, hand := "left", label := "A" },
      { key := "KeyS", normal := [0x0947], shift := [0x0948],
        altgr := [0x092D], altgrShift := [0x0937, 0x094D, 0x091F],
        finger := 1, hand := "left", label := "S" },
      { key := "KeyD", normal := [0x0915], shift := [0x0915, 0x094D],
        altgr := [0x0927], altgrShift := [0x0937, 0x094D, 0x0920],
        finger := 2, hand := "left", label := "D" },
      { key := "KeyF", normal := [0x093F], shift := [0x0925, 0x094D],
        altgr := [0x092F, 0x094D], altgrShift := [0x0925],
        finger := 3, hand := "left", label := "F" },
      { key := "KeyG", normal := [0x0939], shift := [0x0933],
        altgr := [0x0918], altgrShift := [0x0917, 0x094D, 0x0930],
        finger := 3, hand := "left", label := "G" },
      { key := "KeyH", normal := [0x0940], shift := [0x092D, 0x094D],
        altgr := [0x0940, 0x0902], altgrShift := [0x091E, 0x094D, 0x091A],
        finger := 4, hand := "right", label := "H" },
      { key := "KeyJ", normal := [0x0930], shift := [0x0936, 0x094D, 0x0930],
        altgr := [0x0930, 0x094D, 0x200D], altgrShift := [0x0936, 0x094D],
        finger := 4, hand := "right", label := "J" },
      { key := "KeyK", normal := [0x093E], shift := [0x091C, 0x094D, 0x091E],
        altgr := [0x094D, 0x092F], altgrShift := [0x091C, 0x094D, 0x091E, 0x094D],
        finger := 5, hand := "right", label := "K" },
      { key := "KeyL", normal := [0x0938], shift := [0x0938, 0x094D],
        altgr := [0x0938, 0x094D, 0x0924, 0x094D, 0x0930], altgrShift := [0x0938, 0x094D, 0x0930],
        finger := 6, hand := "right", label := "L" },
      { key := "Semicolon", normal := [0x092F], shift := [0x0930, 0x0942],
        altgr := [0x003B], altgrShift := [0x091E, 0x094D, 0x091C],
        finger := 7, hand := "right", label := ";" },
      { key := "Quote", normal := [0x0936, 0x094D], shift := [0x0937, 0x094D],
        altgr := [0x0936], altgrShift := [0x0937],
        finger := 7, hand := "right", label := "\x27" },
      { key := "Enter", normal := [], shift := [],
        altgr := [], altgrShift := [],
        finger := 7, hand := "right", label := "Enter" }
      ],
      [
      { key := "ShiftLeft", normal := [], shift := [],
        altgr := [], altgrShift := [],
        finger := 0, hand := "left", label := "Shift" },
      { key := "KeyZ", normal := [0x094D, 0x0930], shift := [0x0930, 0x094D],
        altgr := [0x094B], altgrShift := [0x094C],
        finger := 0, hand := "left", label := "Z" },
      { key := "KeyX", normal := [0x0917], shift := [0x0917, 0x094D],
        altgr := [0x0926, 0x094D, 0x0930], altgrShift := [0x0917, 0x093C],
        finger := 1, hand := "left", label := "X" },
      { key := "KeyC", normal := [0x092C], shift := [0x092C, 0x094D],
        altgr := [0x0921, 0x093C], altgrShift := [0x091C, 0x093C],
        finger := 2, hand := "left", label := "C" },
      { key := "KeyV", normal := [0x0905], shift := [0x091F],
        altgr := [0x091F, 0x094D], altgrShift := [0x091F, 0x094D, 0x091F],
        finger := 3, hand := "left", label := "V" },
      { key := "KeyB", normal := [0x0907], shift := [0x0920],
        altgr := [0x0908], altgrShift := [0x0908, 0x0902],
        finger := 3, hand := "left", label := "B" },
      { key := "KeyN", normal := [0x0926], shift := [0x091B],
        altgr := [0x0923], altgrShift := [0x0926, 0x094D, 0x092E],
        finger := 4, hand := "right", label := "N" },
      { key := "KeyM", normal := [0x0909], shift := [0x0921],
        altgr := [0x090A], altgrShift := [0x0921, 0x094D, 0x0921],
        finger := 4, hand := "right", label := "M" },
      { key := "Comma", normal := [0x090F], shift := [0x0922],
        altgr := [0x0901], altgrShift := [0x0922, 0x094D, 0x0922],
        finger := 5, hand := "right", label := "," },
      { key := "Period", normal := [0x0923, 0x094D], shift := [0x091D],
        altgr := [0x002E], altgrShift := [0x091D, 0x094D],
        finger := 6, hand := "right", label := "." },
      { key := "Slash", normal := [0x0927, 0x094D], shift := [0x0918, 0x094D],
        altgr := [0x002F], altgrShift := [0x003F],
        finger := 7, hand := "right", label := "/" },
      { key := "ShiftRight", normal := [], shift := [],
        altgr := [], altgrShift := [],
        finger := 7, hand := "right", label := "Shift" }
      ],
      [
      { key := "ControlLeft", normal := [], shift := [],
        altgr := [], altgrShift := [],
        finger := 0, hand := "left", label := "Ctrl" },
      { key := "AltLeft", normal := [], shift := [],
        altgr := [], altgrShift := [],
        finger := 0, hand := "left", label := "Alt" },
      { key := "Space", normal := [0x0020], shift := [0x0020],
        altgr := [0x0020], altgrShift := [0x0020],
        finger := 4, hand := "left", label := "Space" },
      { key := "AltRight", normal := [], shift := [],
        altgr := [], altgrShift := [],
        finger := 7, hand := "right", label := "Alt" },
      { key := "ControlRight", normal := [], shift := [],
        altgr := [], altgrShift := [],
        finger := 7, hand := "right", label := "Ctrl" }
      ]
    ] }

def INSCRIPT_LAYOUT : KeyboardLayout :=
  { name := "INSCRIPT"
  , description := "Government of India standard layout for Devanagari input"
  , modifiers := { shift := ["ShiftLeft", "ShiftRight"], altgr := [] }
  , rows :=
    [
      [
      { key := "Backquote", normal := [0x094A], shift := [0x0912],
        altgr := [], altgrShift := [],
        finger := 0, hand := "left", label := "`" },
      { key := "Digit1", normal := [0x0967], shift := [0x090D],
        altgr := [], altgrShift := [],
        finger := 0, hand := "left", label := "1" },
      { key := "Digit2", normal := [0x0968], shift := [0x0945],
        altgr := [], altgrShift := [],
        finger := 1, hand := "left", label := "2" },
      { key := "Digit3", normal := [0x0969], shift := [0x094D, 0x0930],
        altgr := [], altgrShift := [],
        finger := 2, hand := "left", label := "3" },
      { key := "Digit4", normal := [0x096A], shift := [0x0930, 0x094D],
        altgr := [], altgrShift := [],
        finger := 3, hand := "left", label := "4" },
      { key := "Digit5", normal := [0x096B], shift := [0x091C, 0x094D, 0x091E],
        altgr := [], altgrShift := [],
        finger := 3, hand := "left", label := "5" },
      { key := "Digit6", normal := [0x096C], shift := [0x0924, 0x094D, 0x0930],
        altgr := [], altgrShift := [],
        finger := 4, hand := "right", label := "6" },
      { key := "Digit7", normal := [0x096D], shift := [0x0915, 0x094D, 0x0937],
        altgr := [], altgrShift := [],
        finger := 4, hand := "right", label := "7" },
      { key := "Digit8", normal := [0x096E], shift := [0x0936, 0x094D, 0x0930],
        altgr := [], altgrShift := [],
        finger := 5, hand := "right", label := "8" },
      { key := "Digit9", normal := [0x096F], shift := [0x0028],
        altgr := [], altgrShift := [],
        finger := 6, hand := "right", label := "9" },
      { key := "Digit0", normal := [0x0966], shift := [0x0029],
        altgr := [], altgrShift := [],
        finger := 7, hand := "right", label := "0" },
      { key := "Minus", normal := [0x002D], shift := [0x0903],
        altgr := [], altgrShift := [],
        finger := 7, hand := "right", label := "-" },
      { key := "Equal", normal := [0x0943], shift := [0x090B],
        altgr := [], altgrShift := [],
        finger := 7, hand := "right", label := "=" },
      { key := "Backspace", normal := [], shift := [],
        altgr := [], altgrShift := [],
        finger := 7, hand := "right", label := "Backspace" }
      ],
      [
      { key := "Tab", normal := [], shift := [],
        altgr := [], altgrShift := [],
        finger := 0, hand := "left", label := "Tab" },
      { key := "KeyQ", normal := [0x094C], shift := [0x0914],
        altgr := [], altgrShift := [],
        finger := 0, hand := "left", label := "Q" },
      { key := "KeyW", normal := [0x0948], shift := [0x0910],
        altgr := [], altgrShift := [],
        finger := 1, hand := "left", label := "W" },
      { key := "KeyE", normal := [0x093E], shift := [0x0906],
        altgr := [], altgrShift := [],
        finger := 2, hand := "left", label := "E" },
      { key := "KeyR", normal := [0x0940], shift := [0x0908],
        altgr := [], altgrShift := [],
        finger := 3, hand := "left", label := "R" },
      { key := "KeyT", normal := [0x0942], shift := [0x090A],
        altgr := [], altgrShift := [],
        finger := 3, hand := "left", label := "T" },
      { key := "KeyY", normal := [0x092C], shift := [0x092D],
        altgr := [], altgrShift := [],
        finger := 4, hand := "right", label := "Y" },
      { key := "KeyU", normal := [0x0939], shift := [0x0919],
        altgr := [], altgrShift := [],
        finger := 4, hand := "right", label := "U" },
      { key := "KeyI", normal := [0x0917], shift := [0x0918],
        altgr := [], altgrShift := [],
        finger := 5, hand := "right", label := "I" },
      { key := "KeyO", normal := [0x0926], shift := [0x0927],
        altgr := [], altgrShift := [],
        finger := 6, hand := "right", label := "O" },
      { key := "KeyP", normal := [0x091C], shift := [0x091D],
        altgr := [], altgrShift := [],
        finger := 7, hand := "right", label := "P" },
      { key := "BracketLeft", normal := [0x0921], shift := [0x0922],
        altgr := [], altgrShift := [],
        finger := 7, hand := "right", label := "[" },
      { key := "BracketRight", normal := [], shift := [0x091E],
        altgr := [], altgrShift := [],
        finger := 7, hand := "right", label := "]" },
      { key := "Backslash", normal := [], shift := [],
        altgr := [], altgrShift := [],
        finger := 7, hand := "right", label := "\\" }
      ],
      [
      { key := "CapsLock", normal := [], shift := [],
        altgr := [], altgrShift := [],
        finger := 0, hand := "left", label := "Caps" },
      { key := "KeyA", normal := [0x094B], shift := [0x0913],
        altgr := [], altgrShift := [],
        finger := 0, hand := "left", label := "A" },
      { key := "KeyS", normal := [0x0947], shift := [0x090F],
        altgr := [], altgrShift := [],
        finger := 1, hand := "left", label := "S" },
      { key := "KeyD", normal := [0x094D], shift := [0x0905],
        altgr := [], altgrShift := [],
        finger := 2, hand := "left", label := "D" },
      { key := "KeyF", normal := [0x093F], shift := [0x0907],
        altgr := [], altgrShift := [],
        finger := 3, hand := "left", label := "F" },
      { key := "KeyG", normal := [0x0941], shift := [0x0909],
        altgr := [], altgrShift := [],
        finger := 3, hand := "left", label := "G" },
      { key := "KeyH", normal := [0x092A], shift := [0x092B],
        altgr := [], altgrShift := [],
        finger := 4, hand := "right", label := "H" },
      { key := "KeyJ", normal := [0x0930], shift := [0x0931],
        altgr := [], altgrShift := [],
        finger := 4, hand := "right", label := "J" },
      { key := "KeyK", normal := [0x0915], shift := [0x0916],
        altgr := [], altgrShift := [],
        finger := 5, hand := "right", label := "K" },
      { key := "KeyL", normal := [0x0924], shift := [0x0925],
        altgr := [], altgrShift := [],
        finger := 6, hand := "right", label := "L" },
      { key := "Semicolon", normal := [0x091A], shift := [0x091B],
        altgr := [], altgrShift := [],
        finger := 7, hand := "right", label := ";" },
      { key := "Quote", normal := [0x091F], shift := [0x0920],
        altgr := [], altgrShift := [],
        finger := 7, hand := "right", label := "\x27" },
      { key := "Enter", normal := [], shift := [],
        altgr := [], altgrShift := [],
        finger := 7, hand := "right", label := "Enter" }
      ],
      [
      { key := "ShiftLeft", normal := [], shift := [],
        altgr := [], altgrShift := [],
        finger := 0, hand := "left", label := "Shift" },
      { key := "KeyZ", normal := [0x0949], shift := [0x0911],
        altgr := [], altgrShift := [],
        finger := 0, hand := "left", label := "Z" },
      { key := "KeyX", normal := [0x0902], shift := [0x0901],
        altgr := [], altgrShift := [],
        finger := 1, hand := "left", label := "X" },
      { key := "KeyC", normal := [0x092E], shift := [0x0923],
        altgr := [], altgrShift := [],
        finger := 2, hand := "left", label := "C" },
      { key := "KeyV", normal := [0x0928], shift := [0x0929],
        altgr := [], altgrShift := [],
        finger := 3, hand := "left", label := "V" },
      { key := "KeyB", normal := [0x0935], shift := [0x0934],
        altgr := [], altgrShift := [],
        finger := 3, hand := "left", label := "B" },
      { key := "KeyN", normal := [0x0932], shift := [0x0933],
        altgr := [], altgrShift := [],
        finger := 4, hand := "right", label := "N" },
      { key := "KeyM", normal := [0x0938], shift := [0x0936],
        altgr := [], altgrShift := [],
        finger := 4, hand := "right", label := "M" },
      { key := "Comma", normal := [0x002C], shift := [0x0937],
        altgr := [], altgrShift := [],
        finger := 5, hand := "right", label := "," },
      { key := "Period", normal := [0x0964], shift := [0x0965],
        altgr := [], altgrShift := [],
        finger := 6, hand := "right", label := "." },
      { key := "Slash", normal := [0x092F], shift := [0x092F, 0x093C],
        altgr := [], altgrShift := [],
        finger := 7, hand := "right", label := "/" },
      { key := "ShiftRight", normal := [], shift := [],
        altgr := [], altgrShift := [],
        finger := 7, hand := "right", label := "Shift" }
      ],
      [
      { key := "ControlLeft", normal := [], shift := [],
        altgr := [], altgrShift := [],
        finger := 0, hand := "left", label := "Ctrl" },
      { key := "AltLeft", normal := [], shift := [],
        altgr := [], altgrShift := [],
        finger := 0, hand := "left", label := "Alt" },
      { key := "Space", normal := [0x0020], shift := [0x0020],
        altgr := [], altgrShift := [],
        finger := 4, hand := "left", label := "Space" },
      { key := "AltRight", normal := [], shift := [],
        altgr := [], altgrShift := [],
        finger := 7, hand := "right", label := "Alt" },
      { key := "ControlRight", normal := [], shift := [],
        altgr := [], altgrShift := [],
        finger := 7, hand := "right", label := "Ctrl" }
      ]
    ] }

/-- First-match lookup in an association list of key mappings; embeds
`Map.get` of the flattened key map (keys are pairwise distinct). -/
def mapGet (keyMap : List KeyMapping) (key : String) : Option KeyMapping :=
  keyMap.find? (fun km => km.key == key)

/-- Definition `KEY_MAP` of `keyboardMappings.ts`: the Remington GAIL rows flattened
into a lookup map. -/
def KEY_MAP : List KeyMapping := REMINGTON_GAIL_LAYOUT.rows.flatten

/-- Definition `INSCRIPT_KEY_MAP` of `keyboardMappings.ts`. -/
def INSCRIPT_KEY_MAP : List KeyMapping := INSCRIPT_LAYOUT.rows.flatten

/-- Definition `AVAILABLE_LAYOUTS` of `keyboardMappings.ts`: the registry of known
layouts keyed by identifier. -/
def AVAILABLE_LAYOUTS : List (String × KeyboardLayout) :=
  [("remington-gail", REMINGTON_GAIL_LAYOUT), ("inscript", INSCRIPT_LAYOUT)]

/-- Lookup of a layout by identifier (`AVAILABLE_LAYOUTS[id]`; `none`
plays the part of JavaScript `undefined`). -/
def layoutForId (id : String) : Option KeyboardLayout :=
  (AVAILABLE_LAYOUTS.find? (fun p => p.1 == id)).map (fun p => p.2)

/-- Function `getCharacterForKey` of `utils/keyboardMapper.ts` (and the identical
hook version), generalised over the active key map exactly as the hook
version is: selects the slot named by the modifier state, the empty string when the
key is unmapped. -/
def getCharacterForKey (keyMap : List KeyMapping) (key : String)
    (modifierState : ModifierState) : JsStr :=
  match mapGet keyMap key with
  | none => []
  | some keyMapping =>
    match modifierState with
    | .shift => keyMapping.shift
    | .altgr => keyMapping.altgr
    | .altgrShift => keyMapping.altgrShift
    | .normal => keyMapping.normal

/-- Function `getModifierState` of `utils/keyboardMapper.ts`: derives the modifier
state from the pressed-key set via the hardcoded key codes `ShiftLeft`,
`ShiftRight` and `AltRight`; it takes no layout argument. -/
def getModifierState (pressedKeys : List String) : ModifierState :=
  if (pressedKeys.contains ("ShiftLeft") || pressedKeys.contains ("ShiftRight")) &&
      pressedKeys.contains ("AltRight") then .altgrShift
  else if pressedKeys.contains ("AltRight") then .altgr
  else if pressedKeys.contains ("ShiftLeft") || pressedKeys.contains ("ShiftRight") then .shift
  else .normal

/-- Function `isModifierKey` of `utils/keyboardMapper.ts`: the hardcoded list of
modifier key codes. -/
def isModifierKey (key : String) : Bool :=
  key == "ShiftLeft" || key == "ShiftRight" || key == "AltRight" ||
  key == "ControlLeft" || key == "ControlRight" || key == "AltLeft" ||
  key == "MetaLeft" || key == "MetaRight"

/-- Function `isTypeableKey` of `utils/keyboardMapper.ts`, generalised over the
active key map as in the hook version: modifier keys and the four fixed
control keys are not typeable, any other key is typeable iff it is in the
key map. -/
def isTypeableKey (keyMap : List KeyMapping) (key : String) : Bool :=
  if isModifierKey key then false
  else if key == "Backspace" || key == "Enter" || key == "Tab" || key == "Escape" then false
  else (mapGet keyMap key).isSome

/-- The character slot of a mapping selected by a modifier state. -/
def slotOf (km : KeyMapping) : ModifierState → JsStr
  | .normal => km.normal
  | .shift => km.shift
  | .altgr => km.altgr
  | .altgrShift => km.altgrShift

/-- One result of `findKeysForCharacter`: the `{key, modifierState,
keyMapping}` record pushed into `results`. -/
structure KeyCandidate where
  key : String
  modifierState : ModifierState
  keyMapping : KeyMapping
deriving DecidableEq, Repr

/-- The candidates one mapping contributes in `findKeysForCharacter`: the
four slot checks in source order (normal, shift, altgr, altgr-shift),
each comparing the slot to the character by raw string equality. -/
def candidatesOfMapping (km : KeyMapping) (character : JsStr) : List KeyCandidate :=
  (if km.normal == character then [⟨km.key, .normal, km⟩] else []) ++
  (if km.shift == character then [⟨km.key, .shift, km⟩] else []) ++
  (if km.altgr == character then [⟨km.key, .altgr, km⟩] else []) ++
  (if km.altgrShift == character then [⟨km.key, .altgrShift, km⟩] else [])

/-- Function `findKeysForCharacter` of `utils/keyboardMapper.ts`: scans the key
values of the map in insertion order and collects every (key, modifier state)
pair whose slot equals the character. -/
def findKeysForCharacter (keyMap : List KeyMapping) (character : JsStr) :
    List KeyCandidate :=
  (keyMap.map (fun km => candidatesOfMapping km character)).flatten

/-- Modelled from the spec: `normalizeHindiText` of `utils/hindiUtils` is
not under `src/`; section 4.2 prescribes canonical Unicode
composition/decomposition so that equivalent combining sequences compare
equal. On the Devanagari block this canonicalisation is the decomposition
of the precomposed nukta letters (U+0929, U+0931, U+0934, U+0958–U+095F),
which are Unicode composition exclusions, into base consonant plus nukta
(U+093C); every other code unit is left unchanged. -/
def nuktaDecompositions : List (Nat × JsStr) :=
  [(0x0929, [0x0928, 0x093C]),
   (0x0931, [0x0930, 0x093C]),
   (0x0934, [0x0933, 0x093C]),
   (0x0958, [0x0915, 0x093C]),
   (0x0959, [0x0916, 0x093C]),
   (0x095A, [0x0917, 0x093C]),
   (0x095B, [0x091C, 0x093C]),
   (0x095C, [0x0921, 0x093C]),
   (0x095D, [0x0922, 0x093C]),
   (0x095E, [0x092B, 0x093C]),
   (0x095F, [0x092F, 0x093C])]

/-- Modelled from the spec: canonicalisation of one code unit — a
precomposed nukta letter is replaced by its canonical decomposition,
every other code unit is kept. -/
def decomposeNukta (c : Nat) : JsStr :=
  match nuktaDecompositions.find? (fun p => p.1 == c) with
  | some p => p.2
  | none => [c]

/-- Modelled from the spec: the normaliser applies the canonicalisation to
every code unit of the text. -/
def normalizeHindiText (s : JsStr) : JsStr :=
  (s.map decomposeNukta).flatten

/-- Modelled from the spec: the declared table of domain-specific
equivalence pairs — each precomposed nukta letter is interchangeable with
its two-keystroke base-plus-nukta form. -/
def hindiEquivalencePairs : List (JsStr × JsStr) :=
  nuktaDecompositions.map (fun p => ([p.1], p.2))

/-- Modelled from the spec: `compareHindiChars` of `utils/hindiUtils` is
not under `src/`; section 4.3 step 4 prescribes comparing the normalised
resolved character with the normalised expected character. -/
def compareHindiChars (a b : JsStr) : Bool :=
  normalizeHindiText a == normalizeHindiText b

/-- Modelled from the spec: the accuracy formula of
the function `calculateDetailedStats` of `utils/statsCalculator`, which is not under
`src/`; section 4.4 prescribes `correct / total * 100`, defined as `100`
when `total == 0`. -/
def calculateAccuracy (total correct : Nat) : ℚ :=
  if total = 0 then 100 else (correct : ℚ) / (total : ℚ) * 100

/-- The layout registry state owned by `KeyboardLayoutProvider` in
`contexts/KeyboardLayoutContext.tsx`: the currently selected layout
identifier. -/
structure RegistryState where
  layoutId : String
deriving DecidableEq, Repr

/-- Function `setLayout` of the provider: the bare `useState` setter — it stores
the given identifier unconditionally, with no validation. -/
def setLayout (_s : RegistryState) (id : String) : RegistryState :=
  ⟨id⟩

/-- Value `currentLayout` of the provider: `AVAILABLE_LAYOUTS[layoutId]`
(`none` when the identifier is unknown, where the JavaScript code yields
`undefined` and crashes on first use). -/
def currentLayout (s : RegistryState) : Option KeyboardLayout :=
  layoutForId s.layoutId

/-- Derived value `keyMap` of the provider: rows of the current layout flattened;
undefined when the current layout is (the JavaScript code throws when
dereferencing `undefined.rows`). -/
def derivedKeyMap (s : RegistryState) : Option (List KeyMapping) :=
  (currentLayout s).map (fun l => l.rows.flatten)

/-- Initialiser of the `useState` cell of the provider: a saved identifier restored
from storage is used only if it is in `AVAILABLE_LAYOUTS`, otherwise the
default applies (storage is embedded as an `Option` input). -/
def initialLayoutId (saved : Option String) (defaultLayout : String) : String :=
  match saved with
  | some id => if (layoutForId id).isSome then id else defaultLayout
  | none => defaultLayout

/-- The `mode` option of `useTypingEngine`. -/
inductive TypingMode where
  | learn
  | practice
deriving DecidableEq, Repr

/-- The configuration of one `useTypingEngine` instance: the target text,
the mode, the optional duration limit and the active key map received
from the layout context. -/
structure EngineConfig where
  targetText : JsStr
  mode : TypingMode
  duration : Option Nat
  keyMap : List KeyMapping

/-- Value `normalizedTarget` of `useTypingEngine`. -/
def normalizedTarget (cfg : EngineConfig) : JsStr :=
  normalizeHindiText cfg.targetText

/-- The mutable state of one `useTypingEngine` instance: the `useState`
cells (`currentIndex`, `typedText`, `errors`, `isActive`), the running and
fired flags of the timer, and `completions`, the number of times `finish` has
run (i.e. how often the completion callback / final statistics snapshot
has been emitted). -/
structure EngineState where
  currentIndex : Nat
  typedText : JsStr
  errors : List Nat
  isActive : Bool
  timerRunning : Bool
  timerFired : Bool
  completions : Nat
deriving DecidableEq, Repr

/-- The initial engine state (also the state after `reset`). -/
def initEngineState : EngineState :=
  { currentIndex := 0, typedText := [], errors := [], isActive := false,
    timerRunning := false, timerFired := false, completions := 0 }

/-- Function `finish` of `useTypingEngine`: deactivates, pauses the timer and
emits the completion callback with the final statistics. -/
def finish (s : EngineState) : EngineState :=
  { s with isActive := false, timerRunning := false,
           completions := s.completions + 1 }

/-- JavaScript single-character indexing `s[i]` as a string: one code
unit, or the empty string out of range. -/
def charAt (s : JsStr) (i : Nat) : JsStr :=
  match s.drop i with
  | [] => []
  | c :: _ => [c]

/-- Flag `isCompleted` of `useTypingEngine`:
`currentIndex >= normalizedTarget.length`. -/
def isCompleted (cfg : EngineConfig) (s : EngineState) : Prop :=
  (normalizedTarget cfg).length ≤ s.currentIndex

instance (cfg : EngineConfig) (s : EngineState) : Decidable (isCompleted cfg s) :=
  inferInstanceAs (Decidable ((normalizedTarget cfg).length ≤ s.currentIndex))

/-- Activation step of `handleKeyPress`: on the first accepted keystroke
the session becomes active and the timer is started. -/
def activate (s : EngineState) : EngineState :=
  if ¬ s.isActive then { s with isActive := true, timerRunning := true } else s

/-- Advancing step of `handleKeyPress` for a non-empty resolved character:
compare the resolved character with the expected target character
(`normalizedTarget[currentIndex]`), append the raw character to the typed
text, record an error on mismatch and increment the cursor. -/
def advance (cfg : EngineConfig) (s : EngineState) (char : JsStr) : EngineState :=
  { s with
    typedText := s.typedText ++ char,
    errors := if ¬ compareHindiChars char (charAt (normalizedTarget cfg) s.currentIndex)
      then s.errors ++ [s.currentIndex] else s.errors,
    currentIndex := s.currentIndex + 1 }

/-- Completion step of `handleKeyPress`: when the advanced cursor has
consumed the whole target, `finish` runs (the source defers it through
`setTimeout(finish, 50)`; the deferred call is embedded as part of the
same atomic unit of work). -/
def completeIfDone (cfg : EngineConfig) (s : EngineState) : EngineState :=
  if (normalizedTarget cfg).length ≤ s.currentIndex then finish s else s

/-- Function `handleKeyPress` of `useTypingEngine`: ignore untypeable keys and
completed sessions; activate and start the timer on the first accepted
keystroke; resolve the character and ignore empty resolutions; otherwise
advance through `advance` and `completeIfDone`. -/
def handleKeyPress (cfg : EngineConfig) (s : EngineState) (key : String)
    (modifiers : ModifierState) : EngineState :=
  if ¬ isTypeableKey cfg.keyMap key ∨ isCompleted cfg s then s
  else if getCharacterForKey cfg.keyMap key modifiers = [] then activate s
  else completeIfDone cfg
    (advance cfg (activate s) (getCharacterForKey cfg.keyMap key modifiers))

/-- Duration callback of the timer (the `onComplete` of `useTimer`, wired to
`finish` in `useTypingEngine`; `useTimer` itself is not under `src/` and
its firing condition is modelled from the spec, section 5: the callback
fires at most once per session, only while the timer is running with a
configured duration in practice mode, and is cancelled by `pause`). -/
def timerFire (cfg : EngineConfig) (s : EngineState) : EngineState :=
  if cfg.mode = .practice ∧ cfg.duration.isSome ∧
      s.timerRunning = true ∧ s.timerFired = false then
    finish { s with timerFired := true }
  else s

/-- One atomic unit of work of the event loop: a delivered key press or
the duration callback of the timer. -/
inductive EngineEvent where
  | keyEvent (key : String) (modifiers : ModifierState)
  | timerEvent
deriving DecidableEq, Repr

/-- Dispatch of one event. -/
def engineStep (cfg : EngineConfig) (s : EngineState) : EngineEvent → EngineState
  | .keyEvent key modifiers => handleKeyPress cfg s key modifiers
  | .timerEvent => timerFire cfg s

/-- A whole session: the engine consumes the events in arrival order
starting from the initial state. -/
def runEngine (cfg : EngineConfig) (events : List EngineEvent) : EngineState :=
  events.foldl (fun s ev => engineStep cfg s ev) initEngineState

/-- Accuracy of `currentStats` as wired in `useTypingEngine`:
`calculateDetailedStats(typedText.length, typedText.length - errors.length,
errors.length, ...)`. -/
def engineAccuracy (s : EngineState) : ℚ :=
  calculateAccuracy s.typedText.length (s.typedText.length - s.errors.length)

/-- Stated from the spec wording, for comparison with the source function
`getModifierState`: the modifier state determined by the declared modifier
role groups of the given layout, with the fixed priority order
altgr-shift, altgr, shift, normal. -/
def modifierStateForSpec (layout : KeyboardLayout) (pressedKeys : List String) :
    ModifierState :=
  if pressedKeys.any (fun k => layout.modifiers.shift.contains k) &&
      pressedKeys.any (fun k => layout.modifiers.altgr.contains k) then .altgrShift
  else if pressedKeys.any (fun k => layout.modifiers.altgr.contains k) then .altgr
  else if pressedKeys.any (fun k => layout.modifiers.shift.contains k) then .shift
  else .normal

/-- Invariant of claim C2: every recorded error position is below the
cursor, and the cursor never exceeds the code-unit length of the typed
text. -/
def ErrInv (s : EngineState) : Prop :=
  (∀ e ∈ s.errors, e < s.currentIndex) ∧ s.currentIndex ≤ s.typedText.length

/-- Invariant of claim C1: the cursor never exceeds the normalized target
length, and the completion callback has run exactly once if the target is
consumed (and the target is nonempty) and zero times otherwise. Holds
along timerless traces. -/
def CompInv (cfg : EngineConfig) (s : EngineState) : Prop :=
  s.currentIndex ≤ (normalizedTarget cfg).length ∧
  s.completions =
    if 0 < (normalizedTarget cfg).length ∧
        s.currentIndex = (normalizedTarget cfg).length then 1 else 0

/-- Weak form of the C1 invariant, preserved also by timer events. -/
def IdxInv (cfg : EngineConfig) (s : EngineState) : Prop :=
  s.currentIndex ≤ (normalizedTarget cfg).length

/-- Practice-mode configuration with a 60-second budget and the two-letter
target U+0905 U+0905 under the Remington GAIL key map, used for claim C1. -/
def cfgPractice2 : EngineConfig :=
  { targetText := [0x0905, 0x0905], mode := TypingMode.practice,
    duration := some 60, keyMap := KEY_MAP }

/-- Event trace for claim C1: a correct keystroke, then the timer expiry,
then the keystroke that consumes the target. -/
def evsPractice2 : List EngineEvent :=
  [EngineEvent.keyEvent ("KeyV") ModifierState.normal, EngineEvent.timerEvent,
   EngineEvent.keyEvent ("KeyV") ModifierState.normal]

/-- Learn-mode configuration with the single-letter target U+0905 under the
Remington GAIL key map. -/
def cfgLearn1 : EngineConfig :=
  { targetText := [0x0905], mode := TypingMode.learn,
    duration := none, keyMap := KEY_MAP }

/-- Learn-mode configuration with the conjunct target U+0926 U+094D U+092F
under the Remington GAIL key map, used for claim C2. -/
def cfgConjunct : EngineConfig :=
  { targetText := [0x0926, 0x094D, 0x092F], mode := TypingMode.learn,
    duration := none, keyMap := KEY_MAP }

/-- The four fixed control key codes excluded by `isTypeableKey`. -/
def controlKeys : List String := ["Backspace", "Enter", "Tab", "Escape"]

/-- Inscript learn-mode configuration with the single-letter target
U+0906, used for claim C4. -/
def cfgInscriptAa : EngineConfig :=
  { targetText := [0x0906], mode := TypingMode.learn,
    duration := none, keyMap := INSCRIPT_KEY_MAP }

/-- Remington learn-mode configuration with the single-letter target
U+0906, used for claim C4. -/
def cfgRemingtonAa : EngineConfig :=
  { targetText := [0x0906], mode := TypingMode.learn,
    duration := none, keyMap := KEY_MAP }

/-- One-character error-free engine state used as the C7 witness input. -/
def oneCharState : EngineState :=
  { currentIndex := 1, typedText := [0x0905], errors := [],
    isActive := false, timerRunning := false, timerFired := false,
    completions := 1 }

/-- The `ShiftRight` entry of the Remington GAIL layout (all four
character slots empty), used in claim C10. -/
def shiftRightMapping : KeyMapping :=
  { key := "ShiftRight", normal := [], shift := [], altgr := [],
    altgrShift := [], finger := 7, hand := "right", label := "Shift" }

example : getCharacterForKey KEY_MAP "KeyV" .normal = [0x0905] := by decide

example : getCharacterForKey KEY_MAP "KeyE" .shift = [0x092E, 0x094D] := by decide

example : getCharacterForKey INSCRIPT_KEY_MAP "KeyE" .shift = [0x0906] := by decide

example : isTypeableKey KEY_MAP "ControlLeft" = false := by decide

example : (mapGet KEY_MAP "ControlLeft").isSome = true := by decide

example :
    (runEngine { targetText := [0x0906], mode := .learn, duration := none,
                 keyMap := INSCRIPT_KEY_MAP } [.keyEvent "KeyE" .shift]).currentIndex = 1 := by
  decide

example :
    (runEngine { targetText := [0x0906], mode := .learn, duration := none,
                 keyMap := KEY_MAP } [.keyEvent "KeyE" .shift]).errors = [0] := by
  decide

lemma contains_eq_decide_mem (p : List String) (a : String) :
    p.contains a = decide (a ∈ p) := by
  induction p with
  | nil => rfl
  | cons x xs ih => simp [List.contains_cons, ih]

lemma any_mem_pair (p : List String) (a b : String) :
    p.any (fun k => decide (k ∈ ([a, b] : List String))) =
      (decide (a ∈ p) || decide (b ∈ p)) := by
  rw [Bool.eq_iff_iff]
  simp only [List.any_eq_true, decide_eq_true_eq, Bool.or_eq_true, List.mem_cons,
    List.not_mem_nil, or_false]
  constructor
  · rintro ⟨x, hx, rfl | rfl⟩
    · exact Or.inl hx
    · exact Or.inr hx
  · rintro (ha | hb)
    · exact ⟨a, ha, Or.inl rfl⟩
    · exact ⟨b, hb, Or.inr rfl⟩

lemma any_mem_single (p : List String) (a : String) :
    p.any (fun k => decide (k ∈ ([a] : List String))) = decide (a ∈ p) := by
  rw [Bool.eq_iff_iff]
  simp only [List.any_eq_true, decide_eq_true_eq, List.mem_singleton]
  constructor
  · rintro ⟨x, hx, rfl⟩; exact hx
  · intro ha; exact ⟨a, ha, rfl⟩

lemma normalizeHindiText_append (a b : JsStr) :
    normalizeHindiText (a ++ b) = normalizeHindiText a ++ normalizeHindiText b := by
  simp [normalizeHindiText]

lemma normalizeHindiText_table (p : Nat × JsStr) (hp : p ∈ nuktaDecompositions) :
    normalizeHindiText p.2 = p.2 := by
  revert p
  decide

lemma normalizeHindiText_decomposeNukta (c : Nat) :
    normalizeHindiText (decomposeNukta c) = decomposeNukta c := by
  unfold decomposeNukta
  cases h : nuktaDecompositions.find? (fun p => p.1 == c) with
  | none => simp [normalizeHindiText, decomposeNukta, h]
  | some p => exact normalizeHindiText_table p (List.mem_of_find?_eq_some h)

lemma normalizeHindiText_idem (s : JsStr) :
    normalizeHindiText (normalizeHindiText s) = normalizeHindiText s := by
  induction s with
  | nil => decide
  | cons c cs ih =>
    have hc : normalizeHindiText (c :: cs) = decomposeNukta c ++ normalizeHindiText cs := by
      simp [normalizeHindiText]
    rw [hc, normalizeHindiText_append, normalizeHindiText_decomposeNukta, ih]

lemma activate_currentIndex (s : EngineState) :
    (activate s).currentIndex = s.currentIndex := by
  unfold activate; split <;> rfl

lemma activate_typedText (s : EngineState) :
    (activate s).typedText = s.typedText := by
  unfold activate; split <;> rfl

lemma activate_errors (s : EngineState) :
    (activate s).errors = s.errors := by
  unfold activate; split <;> rfl

lemma activate_completions (s : EngineState) :
    (activate s).completions = s.completions := by
  unfold activate; split <;> rfl

lemma advance_errors_sub (cfg : EngineConfig) (s : EngineState) (char : JsStr) :
    (advance cfg s char).errors = s.errors ∨
      (advance cfg s char).errors = s.errors ++ [s.currentIndex] := by
  unfold advance
  dsimp only
  split
  · exact Or.inr rfl
  · exact Or.inl rfl

lemma foldl_inv {α β : Type} {f : α → β → α} {P : α → Prop}
    (hstep : ∀ a b, P a → P (f a b)) :
    ∀ (l : List β) (a : α), P a → P (l.foldl f a) := by
  intro l
  induction l with
  | nil => exact fun a ha => ha
  | cons x xs ih => exact fun a ha => ih (f a x) (hstep a x ha)

lemma foldl_inv_mem {α β : Type} {f : α → β → α} {P : α → Prop} :
    ∀ (l : List β) (a : α), P a → (∀ a2 b, b ∈ l → P a2 → P (f a2 b)) →
      P (l.foldl f a) := by
  intro l
  induction l with
  | nil => exact fun a ha _ => ha
  | cons x xs ih =>
    intro a ha hstep
    exact ih (f a x) (hstep a x (List.mem_cons_self x xs) ha)
      (fun a2 b hb => hstep a2 b (List.mem_cons_of_mem x hb))

lemma errInv_activate {s : EngineState} (h : ErrInv s) : ErrInv (activate s) := by
  refine ⟨?_, ?_⟩
  · rw [activate_errors, activate_currentIndex]; exact h.1
  · rw [activate_currentIndex, activate_typedText]; exact h.2

lemma errInv_finish {s : EngineState} (h : ErrInv s) : ErrInv (finish s) := h

lemma errInv_advance {cfg : EngineConfig} {s : EngineState} {char : JsStr}
    (hchar : char ≠ []) (h : ErrInv s) : ErrInv (advance cfg s char) := by
  refine ⟨?_, ?_⟩
  · intro e he
    show e < s.currentIndex + 1
    rcases advance_errors_sub cfg s char with heq | heq <;> rw [heq] at he
    · exact Nat.lt_succ_of_lt (h.1 e he)
    · rcases List.mem_append.mp he with h1 | h2
      · exact Nat.lt_succ_of_lt (h.1 e h1)
      · rw [List.mem_singleton] at h2
        rw [h2]
        exact Nat.lt_succ_self _
  · show s.currentIndex + 1 ≤ (s.typedText ++ char).length
    rw [List.length_append]
    have hpos : 0 < char.length := List.length_pos.mpr hchar
    have h2 : s.currentIndex ≤ s.typedText.length := h.2
    omega

lemma errInv_completeIfDone {cfg : EngineConfig} {s : EngineState}
    (h : ErrInv s) : ErrInv (completeIfDone cfg s) := by
  unfold completeIfDone
  split
  · exact errInv_finish h
  · exact h

lemma errInv_handleKeyPress (cfg : EngineConfig) (s : EngineState)
    (key : String) (m : ModifierState) (h : ErrInv s) :
    ErrInv (handleKeyPress cfg s key m) := by
  unfold handleKeyPress
  split
  · exact h
  · split
    · exact errInv_activate h
    next hchar =>
      exact errInv_completeIfDone (errInv_advance hchar (errInv_activate h))

lemma errInv_timerFire (cfg : EngineConfig) (s : EngineState) (h : ErrInv s) :
    ErrInv (timerFire cfg s) := by
  unfold timerFire
  split
  · exact h
  · exact h

lemma errInv_engineStep (cfg : EngineConfig) (s : EngineState) (ev : EngineEvent)
    (h : ErrInv s) : ErrInv (engineStep cfg s ev) := by
  cases ev with
  | keyEvent key m => exact errInv_handleKeyPress cfg s key m h
  | timerEvent => exact errInv_timerFire cfg s h

lemma errInv_init : ErrInv initEngineState := by
  constructor
  · intro e he
    simp [initEngineState] at he
  · exact Nat.le_refl 0

lemma advance_currentIndex (cfg : EngineConfig) (s : EngineState) (char : JsStr) :
    (advance cfg s char).currentIndex = s.currentIndex + 1 := rfl

lemma advance_completions (cfg : EngineConfig) (s : EngineState) (char : JsStr) :
    (advance cfg s char).completions = s.completions := rfl

lemma finish_currentIndex (s : EngineState) :
    (finish s).currentIndex = s.currentIndex := rfl

lemma finish_completions (s : EngineState) :
    (finish s).completions = s.completions + 1 := rfl

lemma idxInv_handleKeyPress (cfg : EngineConfig) (s : EngineState)
    (key : String) (m : ModifierState) (h : IdxInv cfg s) :
    IdxInv cfg (handleKeyPress cfg s key m) := by
  unfold handleKeyPress
  split
  · exact h
  next hguard =>
    have hnc : ¬ isCompleted cfg s := fun hc => hguard (Or.inr hc)
    have hlt : s.currentIndex < (normalizedTarget cfg).length := Nat.not_le.mp hnc
    split
    · show (activate s).currentIndex ≤ _
      rw [activate_currentIndex]
      exact h
    · unfold completeIfDone
      split
      · show (activate s).currentIndex + 1 ≤ _
        rw [activate_currentIndex]
        omega
      · show (activate s).currentIndex + 1 ≤ _
        rw [activate_currentIndex]
        omega

lemma idxInv_timerFire (cfg : EngineConfig) (s : EngineState) (h : IdxInv cfg s) :
    IdxInv cfg (timerFire cfg s) := by
  unfold timerFire
  split
  · exact h
  · exact h

lemma idxInv_engineStep (cfg : EngineConfig) (s : EngineState) (ev : EngineEvent)
    (h : IdxInv cfg s) : IdxInv cfg (engineStep cfg s ev) := by
  cases ev with
  | keyEvent key m => exact idxInv_handleKeyPress cfg s key m h
  | timerEvent => exact idxInv_timerFire cfg s h

lemma compInv_handleKeyPress (cfg : EngineConfig) (s : EngineState)
    (key : String) (m : ModifierState) (h : CompInv cfg s) :
    CompInv cfg (handleKeyPress cfg s key m) := by
  unfold handleKeyPress
  split
  · exact h
  next hguard =>
    have hnc : ¬ isCompleted cfg s := fun hc => hguard (Or.inr hc)
    have hlt : s.currentIndex < (normalizedTarget cfg).length := Nat.not_le.mp hnc
    have h0 : s.completions = 0 := by
      rw [h.2, if_neg]
      rintro ⟨-, heq⟩
      omega
    split
    · refine ⟨?_, ?_⟩
      · rw [activate_currentIndex]
        exact h.1
      · rw [activate_completions, activate_currentIndex, h0, if_neg]
        rintro ⟨-, heq⟩
        omega
    next hchar =>
      unfold completeIfDone
      split
      next hdone =>
        rw [advance_currentIndex, activate_currentIndex] at hdone
        refine ⟨?_, ?_⟩
        · rw [finish_currentIndex, advance_currentIndex, activate_currentIndex]
          omega
        · rw [finish_completions, advance_completions, activate_completions, h0,
            finish_currentIndex, advance_currentIndex, activate_currentIndex, if_pos]
          exact ⟨by omega, by omega⟩
      next hnotdone =>
        rw [advance_currentIndex, activate_currentIndex] at hnotdone
        refine ⟨?_, ?_⟩
        · rw [advance_currentIndex, activate_currentIndex]
          omega
        · rw [advance_completions, activate_completions, h0,
            advance_currentIndex, activate_currentIndex, if_neg]
          rintro ⟨-, heq⟩
          omega

lemma compInv_init (cfg : EngineConfig) : CompInv cfg initEngineState := by
  refine ⟨Nat.zero_le _, ?_⟩
  rw [if_neg]
  · rfl
  · rintro ⟨hpos, heq⟩
    simp [initEngineState] at heq
    omega

lemma mem_candidatesOfMapping {km : KeyMapping} {c : JsStr} {cand : KeyCandidate} :
    cand ∈ candidatesOfMapping km c ↔
      cand.keyMapping = km ∧ cand.key = km.key ∧ slotOf km cand.modifierState = c := by
  rcases cand with ⟨k, m, km2⟩
  unfold candidatesOfMapping
  split_ifs with h1 h2 h3 h4 <;> cases m <;>
    (simp_all [slotOf, beq_iff_eq]; try tauto)

/-- Claim C5 (amended): `findKeysForCharacter` collects exactly the (key,
modifier state, mapping) records whose slot equals the searched character
under RAW code-unit-sequence equality, with no normalization applied; two
representations that the normalizer identifies can therefore yield
different candidate sets (see the counterexample). -/
theorem c5_candidates_amended (keyMap : List KeyMapping) (character : JsStr)
    (cand : KeyCandidate) :
    cand ∈ findKeysForCharacter keyMap character ↔
      cand.keyMapping ∈ keyMap ∧ cand.key = cand.keyMapping.key ∧
        slotOf cand.keyMapping cand.modifierState = character := by
  unfold findKeysForCharacter
  rw [List.mem_flatten]
  constructor
  · rintro ⟨l, hl, hcand⟩
    rcases List.mem_map.mp hl with ⟨km, hkm, rfl⟩
    rcases mem_candidatesOfMapping.mp hcand with ⟨hkm2, hkey, hslot⟩
    subst hkm2
    exact ⟨hkm, hkey, hslot⟩
  · rintro ⟨hkm, hkey, hslot⟩
    exact ⟨candidatesOfMapping cand.keyMapping character,
      List.mem_map.mpr ⟨cand.keyMapping, hkm, rfl⟩,
      mem_candidatesOfMapping.mpr ⟨rfl, hkey, hslot⟩⟩

/-- Witness for C5 at a concrete input: the Space mapping is a candidate
for the character `" "` in the normal modifier state. -/
theorem c5_candidates_witness :
    (⟨"Space", ModifierState.normal,
      { key := "Space", normal := [0x0020], shift := [0x0020], altgr := [0x0020],
        altgrShift := [0x0020], finger := 4, hand := "left", label := "Space" }⟩ :
      KeyCandidate) ∈ findKeysForCharacter KEY_MAP [0x0020] :=
  (c5_candidates_amended KEY_MAP [0x0020] _).mpr ⟨by decide, rfl, rfl⟩

/-- Counterexample for C5 as stated: the normalizer identifies the
precomposed letter U+095E with its decomposed form U+092B U+093C, yet the
two forms give different candidate sets under the Remington GAIL key map
(the decomposed form is the altgr slot of KeyU, the precomposed form
matches no slot). -/
theorem c5_counterexample :
    normalizeHindiText [0x095E] = normalizeHindiText [0x092B, 0x093C] ∧
    findKeysForCharacter KEY_MAP [0x095E] = [] ∧
    findKeysForCharacter KEY_MAP [0x092B, 0x093C] ≠ [] := by
  decide

/-- Claim C9: the text normalizer is idempotent, and every declared
domain-specific equivalence pair maps to the same canonical form. -/
theorem c9_normalize_idempotent :
    (∀ s : JsStr, normalizeHindiText (normalizeHindiText s) = normalizeHindiText s) ∧
    hindiEquivalencePairs.all
      (fun p => normalizeHindiText p.1 == normalizeHindiText p.2) = true := by
  constructor
  · exact normalizeHindiText_idem
  · decide

/-- Counterexample for C8 as stated: `getModifierState` ignores the
layout and hardcodes `AltRight` as the altgr key, so under the INSCRIPT
layout — whose declared altgr role group is empty — pressing only
`AltRight` yields `altgr` although no declared altgr-role key is held. -/
theorem c8_counterexample :
    getModifierState ["AltRight"] = ModifierState.altgr ∧
    modifierStateForSpec INSCRIPT_LAYOUT ["AltRight"] = ModifierState.normal ∧
    ModifierState.altgr ≠ ModifierState.normal := by
  decide

/-- Claim C8 (amended): `getModifierState` coincides with the role-based
description for the Remington GAIL layout (whose declared groups are
exactly the hardcoded keys), and its result is invariant under
permutation of the pressed-key set. -/
theorem c8_modifier_state_amended :
    (∀ pressedKeys : List String,
        getModifierState pressedKeys =
          modifierStateForSpec REMINGTON_GAIL_LAYOUT pressedKeys) ∧
    (∀ p q : List String, p.Perm q → getModifierState p = getModifierState q) := by
  constructor
  · intro p
    unfold getModifierState modifierStateForSpec
    have h1 : REMINGTON_GAIL_LAYOUT.modifiers.shift = ["ShiftLeft", "ShiftRight"] := rfl
    have h2 : REMINGTON_GAIL_LAYOUT.modifiers.altgr = ["AltRight"] := rfl
    rw [h1, h2]
    simp only [contains_eq_decide_mem, any_mem_pair, any_mem_single]
  · intro p q hpq
    unfold getModifierState
    simp only [contains_eq_decide_mem, hpq.mem_iff]

/-- Witness for C8 at a concrete input: swapping the two pressed keys
does not change the modifier state. -/
theorem c8_modifier_state_witness :
    getModifierState ["ShiftLeft", "AltRight"] =
      getModifierState ["AltRight", "ShiftLeft"] :=
  c8_modifier_state_amended.2 _ _ (List.Perm.swap ("AltRight") ("ShiftLeft") [])

/-- Counterexample for C1 as stated: in practice mode with a duration,
the timer can expire mid-session (first emission of the completion
callback) and the user can then finish the target (second emission): the
final-statistics emission happens twice in one session. -/
theorem c1_counterexample :
    (runEngine cfgPractice2 evsPractice2).completions = 2 ∧
    (runEngine cfgPractice2 evsPractice2).currentIndex =
      (normalizedTarget cfgPractice2).length := by
  decide

/-- Claim C1 (amended): in every reachable engine state the cursor never
exceeds the normalized target length, so the session is completed exactly
when the cursor equals the target length; and along traces without a
timer expiry the completion callback runs exactly once when a nonempty
target has been consumed and never otherwise (with a timer expiry it can
run twice, see the counterexample). -/
theorem c1_completion_amended (cfg : EngineConfig) (evs : List EngineEvent) :
    (runEngine cfg evs).currentIndex ≤ (normalizedTarget cfg).length ∧
    (isCompleted cfg (runEngine cfg evs) ↔
      (runEngine cfg evs).currentIndex = (normalizedTarget cfg).length) ∧
    (EngineEvent.timerEvent ∉ evs →
      (runEngine cfg evs).completions =
        if 0 < (normalizedTarget cfg).length ∧
            (runEngine cfg evs).currentIndex = (normalizedTarget cfg).length
        then 1 else 0) := by
  have hidx : IdxInv cfg (runEngine cfg evs) :=
    foldl_inv (fun s ev h => idxInv_engineStep cfg s ev h) evs initEngineState
      (Nat.zero_le _)
  refine ⟨hidx, ⟨fun hc => Nat.le_antisymm hidx hc, fun he => Nat.le_of_eq he.symm⟩, ?_⟩
  intro hnt
  have hcomp : CompInv cfg (runEngine cfg evs) := by
    apply foldl_inv_mem evs initEngineState (compInv_init cfg)
    intro s ev hev hs
    cases ev with
    | keyEvent key m => exact compInv_handleKeyPress cfg s key m hs
    | timerEvent => exact absurd hev hnt
  exact hcomp.2

/-- Witness for C1 at a concrete input: a one-keystroke learn-mode
session that consumes the target emits the completion exactly once. -/
theorem c1_completion_witness :
    (runEngine cfgLearn1 [EngineEvent.keyEvent ("KeyV") ModifierState.normal]).completions =
      if 0 < (normalizedTarget cfgLearn1).length ∧
          (runEngine cfgLearn1
              [EngineEvent.keyEvent ("KeyV") ModifierState.normal]).currentIndex =
            (normalizedTarget cfgLearn1).length
      then 1 else 0 :=
  (c1_completion_amended _ _).2.2 (by decide)

/-- Counterexample for C2 as stated: a keystroke whose resolved character
spans three code units (Shift+Backquote resolves the conjunct U+0926
U+094D U+092F) advances the cursor by one while the typed text grows by
three code units, so the cursor does not equal the typed-text length. -/
theorem c2_counterexample :
    (runEngine cfgConjunct
      [EngineEvent.keyEvent ("Backquote") ModifierState.shift]).currentIndex = 1 ∧
    (runEngine cfgConjunct
      [EngineEvent.keyEvent ("Backquote") ModifierState.shift]).typedText.length = 3 ∧
    (runEngine cfgConjunct
      [EngineEvent.keyEvent ("Backquote") ModifierState.shift]).currentIndex ≠
      (runEngine cfgConjunct
        [EngineEvent.keyEvent ("Backquote") ModifierState.shift]).typedText.length := by
  decide

/-- Claim C2 (amended): in every reachable engine state every recorded
error position lies in `[0, position)`, and the cursor is at most the
code-unit length of the typed text (the cursor counts accepted
keystrokes, the typed text grows by the full resolved character, so
equality fails for multi-code-unit characters). -/
theorem c2_position_amended (cfg : EngineConfig) (evs : List EngineEvent) :
    (∀ e ∈ (runEngine cfg evs).errors, e < (runEngine cfg evs).currentIndex) ∧
    (runEngine cfg evs).currentIndex ≤ (runEngine cfg evs).typedText.length :=
  foldl_inv (fun s ev h => errInv_engineStep cfg s ev h) evs initEngineState errInv_init

/-- Witness for C2 at a concrete input: the recorded error at position 0
lies below the cursor. -/
theorem c2_position_witness :
    0 ∈ (runEngine cfgConjunct
      [EngineEvent.keyEvent ("Backquote") ModifierState.shift]).errors ∧
    0 < (runEngine cfgConjunct
      [EngineEvent.keyEvent ("Backquote") ModifierState.shift]).currentIndex :=
  ⟨by decide, (c2_position_amended _ _).1 0 (by decide)⟩

/-- Counterexample for C3 as stated: `ControlLeft` is in no declared
modifier role group, is not one of the four control keys, and has an
entry in the Remington GAIL key map, yet `isTypeableKey` returns false
for it (it is in the hardcoded modifier list of `isModifierKey`). -/
theorem c3_counterexample :
    isTypeableKey KEY_MAP ("ControlLeft") = false ∧
    ("ControlLeft" ∉ REMINGTON_GAIL_LAYOUT.modifiers.shift) ∧
    ("ControlLeft" ∉ REMINGTON_GAIL_LAYOUT.modifiers.altgr) ∧
    ("ControlLeft" ∉ controlKeys) ∧
    (mapGet KEY_MAP ("ControlLeft")).isSome = true := by
  decide

/-- Claim C3 (amended): `isTypeableKey` is false for every key in the
declared modifier role groups of the active layout, false for the four
fixed control keys, false for every key of the hardcoded modifier list
(which also contains `ControlLeft`, `ControlRight`, `AltLeft`, `MetaLeft`
and `MetaRight`), and for every remaining key it is true exactly when the
key has an entry in the active key map. -/
theorem c3_isTypeable_amended (keyMap : List KeyMapping) (k : String) :
    (k ∈ REMINGTON_GAIL_LAYOUT.modifiers.shift ∨
        k ∈ REMINGTON_GAIL_LAYOUT.modifiers.altgr →
      isTypeableKey keyMap k = false) ∧
    (k ∈ controlKeys → isTypeableKey keyMap k = false) ∧
    (isModifierKey k = true → isTypeableKey keyMap k = false) ∧
    (isModifierKey k = false → k ∉ controlKeys →
      isTypeableKey keyMap k = (mapGet keyMap k).isSome) := by
  refine ⟨?_, ?_, ?_, ?_⟩
  · intro hmem
    have hmod : isModifierKey k = true := by
      rcases hmem with hs | ha
      · have : k = "ShiftLeft" ∨ k = "ShiftRight" := by
          simpa [REMINGTON_GAIL_LAYOUT] using hs
        rcases this with rfl | rfl <;> decide
      · have : k = "AltRight" := by
          simpa [REMINGTON_GAIL_LAYOUT] using ha
        rcases this with rfl
        decide
    simp [isTypeableKey, hmod]
  · intro hmem
    have : k = "Backspace" ∨ k = "Enter" ∨ k = "Tab" ∨ k = "Escape" := by
      simpa [controlKeys] using hmem
    unfold isTypeableKey
    rcases this with rfl | rfl | rfl | rfl <;> simp [isModifierKey]
  · intro hmod
    simp [isTypeableKey, hmod]
  · intro hmod hctl
    have h1 : (k == "Backspace") = false := by
      simp only [beq_eq_false_iff_ne, ne_eq]
      intro h
      exact hctl (by rw [h]; decide)
    have h2 : (k == "Enter") = false := by
      simp only [beq_eq_false_iff_ne, ne_eq]
      intro h
      exact hctl (by rw [h]; decide)
    have h3 : (k == "Tab") = false := by
      simp only [beq_eq_false_iff_ne, ne_eq]
      intro h
      exact hctl (by rw [h]; decide)
    have h4 : (k == "Escape") = false := by
      simp only [beq_eq_false_iff_ne, ne_eq]
      intro h
      exact hctl (by rw [h]; decide)
    simp [isTypeableKey, hmod, h1, h2, h3, h4]

/-- Witness for C3 at concrete inputs: `ShiftLeft` (shift role group) is
untypeable, and `CapsLock` (no modifier, no control key) is typeable
exactly because it has an entry in the Remington GAIL key map. -/
theorem c3_isTypeable_witness :
    isTypeableKey KEY_MAP ("ShiftLeft") = false ∧
    isTypeableKey KEY_MAP ("CapsLock") = (mapGet KEY_MAP ("CapsLock")).isSome :=
  ⟨(c3_isTypeable_amended KEY_MAP ("ShiftLeft")).1 (by decide),
   (c3_isTypeable_amended KEY_MAP ("CapsLock")).2.2.2 (by decide) (by decide)⟩

/-- Counterexample for C4 as stated: under the Remington GAIL layout,
Shift+KeyE resolves to U+092E U+094D (Ma plus halant), not to U+0906
(letter AA), and the keystroke records an error at position 0. -/
theorem c4_counterexample :
    getCharacterForKey KEY_MAP ("KeyE") ModifierState.shift = [0x092E, 0x094D] ∧
    getCharacterForKey KEY_MAP ("KeyE") ModifierState.shift ≠ [0x0906] ∧
    (runEngine cfgRemingtonAa
      [EngineEvent.keyEvent ("KeyE") ModifierState.shift]).errors = [0] := by
  decide

/-- Claim C4 (amended): under the INSCRIPT layout, Shift+KeyE resolves to
U+0906 (letter AA), so with target U+0906 a single such keystroke matches
the target with no recorded error and completes the session (emitting the
completion once). -/
theorem c4_scenario_amended :
    getCharacterForKey INSCRIPT_KEY_MAP ("KeyE") ModifierState.shift = [0x0906] ∧
    (runEngine cfgInscriptAa
      [EngineEvent.keyEvent ("KeyE") ModifierState.shift]).currentIndex =
      (normalizedTarget cfgInscriptAa).length ∧
    (runEngine cfgInscriptAa
      [EngineEvent.keyEvent ("KeyE") ModifierState.shift]).errors = [] ∧
    (runEngine cfgInscriptAa
      [EngineEvent.keyEvent ("KeyE") ModifierState.shift]).completions = 1 := by
  decide

/-- Counterexample for C6 as stated: `setLayout` with an unknown
identifier is not a no-op — it stores the identifier, so the previously
selected layout is not kept and the derived current layout is undefined
(the provider would crash dereferencing it). -/
theorem c6_counterexample :
    (setLayout ⟨"remington-gail"⟩ ("qwerty")).layoutId ≠ "remington-gail" ∧
    currentLayout (setLayout ⟨"remington-gail"⟩ ("qwerty")) = none := by
  decide

/-- Claim C6 (amended): `setLayout` stores the given identifier
unconditionally; for identifiers in the known set the current layout and
the derived key map consistently reflect the newly selected layout;
validation with silent fallback to the default happens only when a
persisted identifier is restored at initialisation. -/
theorem c6_registry_amended (s : RegistryState) (id : String) :
    (setLayout s id).layoutId = id ∧
    (∀ l : KeyboardLayout, layoutForId id = some l →
      currentLayout (setLayout s id) = some l ∧
      derivedKeyMap (setLayout s id) = some l.rows.flatten) ∧
    (∀ dflt : String, layoutForId id = none → initialLayoutId (some id) dflt = dflt) := by
  refine ⟨rfl, ?_, ?_⟩
  · intro l hl
    constructor
    · show layoutForId id = some l
      exact hl
    · show (layoutForId id).map _ = _
      rw [hl]
      rfl
  · intro dflt hnone
    show (if (layoutForId id).isSome = true then id else dflt) = dflt
    rw [hnone]
    rfl

/-- Witness for C6 at concrete inputs: selecting the known identifier
`inscript` makes the current layout and derived key map reflect the
INSCRIPT layout, and restoring the unknown identifier `qwerty` falls back
to the default. -/
theorem c6_registry_witness :
    currentLayout (setLayout ⟨"remington-gail"⟩ ("inscript")) = some INSCRIPT_LAYOUT ∧
    derivedKeyMap (setLayout ⟨"remington-gail"⟩ ("inscript")) =
      some INSCRIPT_LAYOUT.rows.flatten ∧
    initialLayoutId (some ("qwerty")) ("remington-gail") = "remington-gail" :=
  ⟨((c6_registry_amended ⟨"remington-gail"⟩ ("inscript")).2.1 INSCRIPT_LAYOUT rfl).1,
   ((c6_registry_amended ⟨"remington-gail"⟩ ("inscript")).2.1 INSCRIPT_LAYOUT rfl).2,
   (c6_registry_amended ⟨"remington-gail"⟩ ("qwerty")).2.2 ("remington-gail") rfl⟩

/-- Claim C7: the accuracy statistic is the ratio of correct characters
to typed characters times 100, is 100 by definition when nothing has been
typed, and is 100 whenever the error list is empty and something has been
typed (the engine passes `typedText.length` and
`typedText.length - errors.length`). -/
theorem c7_accuracy (t c : Nat) (s : EngineState) :
    calculateAccuracy 0 c = 100 ∧
    (t ≠ 0 → calculateAccuracy t c = (c : ℚ) / (t : ℚ) * 100) ∧
    (s.errors = [] → s.typedText.length ≠ 0 → engineAccuracy s = 100) := by
  refine ⟨?_, ?_, ?_⟩
  · simp [calculateAccuracy]
  · intro ht
    simp [calculateAccuracy, ht]
  · intro herr hlen
    unfold engineAccuracy calculateAccuracy
    rw [herr]
    simp only [List.length_nil, Nat.sub_zero]
    rw [if_neg hlen, div_self (Nat.cast_ne_zero.mpr hlen), one_mul]

/-- Witness for C7 at concrete inputs: the formula at 3 typed, 5 correct,
and a one-character error-free state with accuracy 100. -/
theorem c7_accuracy_witness :
    calculateAccuracy 3 5 = (5 : ℚ) / (3 : ℚ) * 100 ∧
    engineAccuracy oneCharState = 100 :=
  ⟨(c7_accuracy 3 5 initEngineState).2.1 (by decide),
   (c7_accuracy 3 5 oneCharState).2.2 rfl (by decide)⟩

/-- Claim C10: searching candidates for the empty string returns a
non-empty list with one entry per empty character slot of the Remington
GAIL layout (40 entries), and in particular reports `ShiftRight` — all
four of whose slots are empty — as a candidate in every modifier state. -/
theorem c10_empty_character_candidates :
    findKeysForCharacter KEY_MAP [] ≠ [] ∧
    (findKeysForCharacter KEY_MAP []).length =
      (KEY_MAP.map (fun km =>
        ([km.normal, km.shift, km.altgr, km.altgrShift].filter
          (fun slot => slot == [])).length)).sum ∧
    (findKeysForCharacter KEY_MAP []).length = 40 ∧
    (∀ m : ModifierState,
      (⟨"ShiftRight", m, shiftRightMapping⟩ : KeyCandidate) ∈
        findKeysForCharacter KEY_MAP []) := by
  decide
